import Mathlib

/-!
Shallow embedding of the prediction fragment of `src/app.py`
(Gwalior Traffic Forecaster) and proofs about it.

Numeric values flowing through the app (travel times in seconds, the
predicted output of the regression model) are embedded as rationals.
External HTTP collaborators are abstracted by their responses: the weather
collaborator by an `Option String` (the `response[quoted weather][0][quoted main]`
free text, `none` when the call raises or the response is unusable), the
routing collaborator by an `Option RouteResponse` (`none` when the call
raises). The pre-trained model artifact is abstracted as an arbitrary
function from the assembled feature row to a rational.
-/

namespace GwaliorTraffic

/-- Python substring scan helper: does `pat` occur at the head of `s`? -/
def strHasPre : List Char → List Char → Bool
  | [], _ => true
  | _ :: _, [] => false
  | p :: ps, c :: cs => p == c && strHasPre ps cs

/-- Python substring scan: does `pat` occur anywhere inside `s`? -/
def strHasSub (pat : List Char) : List Char → Bool
  | [] => strHasPre pat []
  | c :: cs => strHasPre pat (c :: cs) || strHasSub pat cs

/-- The Python expression `pat in s` on strings (case-sensitive substring test). -/
def pyIn (pat s : String) : Bool :=
  strHasSub pat.data s.data

/-- `pat` is a (case-sensitive, contiguous) substring of `s`. -/
def IsSub (pat s : String) : Prop :=
  ∃ l r, s.data = l ++ pat.data ++ r

/-- `MODEL_COLUMNS` from `src/app.py` lines 22-28: the fixed model input schema. -/
def MODEL_COLUMNS : List String :=
  ["base_travel_time_seconds", "day_of_week", "hour_of_day",
   "is_market_closed", "is_holiday", "weather",
   "route_name_CityCenter-to-Palace", "route_name_Fort-to-Station",
   "route_name_Highway-Bypass", "route_name_Mall-to-IIITM",
   "route_name_Thatipur-to-Morar"]

/-- The five one-hot route indicator columns of the schema, in schema order. -/
def ROUTE_COLUMNS : List String :=
  ["route_name_CityCenter-to-Palace", "route_name_Fort-to-Station",
   "route_name_Highway-Bypass", "route_name_Mall-to-IIITM",
   "route_name_Thatipur-to-Morar"]

/-- `get_live_weather` (src/app.py lines 47-56), abstracted over the weather
collaborator: the input is `response[quoted weather][0][quoted main]` when the HTTP call
and field accesses succeed, `none` when anything raises (the bare
`except Exception` path). Returns the `(weather_code, description)` pair. -/
def get_live_weather (response : Option String) : Nat × String :=
  match response with
  | none => (0, "Clear ☀️ (default)")
  | some weather_main =>
    if pyIn "Rain" weather_main || pyIn "Drizzle" weather_main ||
        pyIn "Thunderstorm" weather_main then
      (2, "Rainy 🌧️ (" ++ weather_main ++ ")")
    else if pyIn "Clouds" weather_main then
      (1, "Cloudy ☁️ (" ++ weather_main ++ ")")
    else
      (0, "Clear ☀️ (" ++ weather_main ++ ")")

/-- The `summary` object of a TomTom route: the two travel-time fields read by
`get_route_details` via `summary.get(...)`; `none` models an absent key. -/
structure RouteSummary where
  trafficTravelTimeInSeconds : Option ℚ
  travelTimeInSeconds : Option ℚ

/-- One element of `route[quoted legs]`; `points` is the decoded polyline. -/
structure RouteLeg where
  points : List (ℚ × ℚ)

/-- One element of `response[quoted routes]`. -/
structure TomTomRoute where
  summary : RouteSummary
  legs : List RouteLeg

/-- The parsed routing response body; `routes` is `response[quoted routes]`
(missing key is modelled by the caller passing `none` for the response). -/
structure RouteResponse where
  routes : List TomTomRoute

/-- Python truthiness of an optional number: `None` and `0` are falsy. -/
def truthyQ : Option ℚ → Bool
  | none => false
  | some q => !(q == 0)

/-- `get_route_details` (src/app.py lines 73-94), abstracted over the routing
collaborator: `resp = none` models the HTTP call raising (or the body missing
the fields read before the guard), in which case the bare `except Exception`
path returns `(None, None, None)`. Otherwise mirrors the source:
`live_time = summary.get(trafficTravelTimeInSeconds, summary.get(travelTimeInSeconds))`,
`base_time = summary.get(travelTimeInSeconds)`, `legs[0]` raising on an
empty list (caught), and the final `if live_time and base_time` truthiness
guard. -/
def get_route_details (resp : Option RouteResponse) :
    Option ℚ × Option ℚ × Option (List (ℚ × ℚ)) :=
  match resp with
  | none => (none, none, none)
  | some response =>
    match response.routes with
    | [] => (none, none, none)
    | route :: _ =>
      match route.legs with
      | [] => (none, none, none)
      | leg :: _ =>
        let live_time : Option ℚ :=
          match route.summary.trafficTravelTimeInSeconds with
          | some t => some t
          | none => route.summary.travelTimeInSeconds
        let base_time : Option ℚ := route.summary.travelTimeInSeconds
        if truthyQ live_time && truthyQ base_time then
          (live_time, base_time, some leg.points)
        else
          (none, none, none)

/-- `get_traffic_status` (src/app.py lines 96-101). `base_time` is optional
because the value handed around the app can be `None`; the source guard is
`if not base_time or base_time == 0`, which for an optional number is exactly
"`none` or `some 0`". The thresholds are the source literals 1.2 and 1.6. -/
def get_traffic_status (predicted_time : ℚ) (base_time : Option ℚ) :
    String × String :=
  match base_time with
  | none => ("Unknown", "⚪")
  | some b =>
    if b = 0 then ("Unknown", "⚪")
    else
      let r := predicted_time / b
      if r < 12 / 10 then ("Light Traffic", "🟢")
      else if 12 / 10 ≤ r ∧ r < 16 / 10 then ("Moderate Traffic", "🟡")
      else ("Heavy Traffic", "🔴")

/-- The reference definition of `classify_traffic` as the spec (§4.1) words it:
falsy `base_seconds` gives Unknown, otherwise Light for ratio < 1.2,
Moderate for 1.2 ≤ ratio < 1.6, Heavy otherwise. -/
def classify_traffic_spec (predicted_seconds : ℚ) (base_seconds : Option ℚ) :
    String × String :=
  match base_seconds with
  | none => ("Unknown", "⚪")
  | some b =>
    if b = 0 then ("Unknown", "⚪")
    else
      let r := predicted_seconds / b
      if r < 6 / 5 then ("Light Traffic", "🟢")
      else if 6 / 5 ≤ r ∧ r < 8 / 5 then ("Moderate Traffic", "🟡")
      else ("Heavy Traffic", "🔴")

/-- The live trip facts the predict stage feeds into the feature row
(src/app.py lines 161-170): the routing base time, `now_ist.weekday()`
(Monday = 0), `now_ist.hour`, the holiday-set membership of the current date, and
the weather code from `get_live_weather`. -/
structure TripContext where
  base_travel_time_seconds : ℚ
  weekday : Nat
  hour : Nat
  is_holiday : Bool
  weather_code : Nat

/-- The value the assembled one-row DataFrame holds in column `col`
(src/app.py lines 166-171): `pd.DataFrame(0, index=[0], columns=MODEL_COLUMNS)`
initializes every column to 0, then the `.loc` writes overwrite
`base_travel_time_seconds`, `day_of_week`, `hour_of_day`, `is_market_closed`,
`is_holiday`, `weather` and the hardcoded `route_name_Thatipur-to-Morar`. -/
def prediction_df_value (t : TripContext) (col : String) : ℚ :=
  if col = "base_travel_time_seconds" then t.base_travel_time_seconds
  else if col = "day_of_week" then (t.weekday : ℚ)
  else if col = "hour_of_day" then (t.hour : ℚ)
  else if col = "is_market_closed" then (if t.weekday = 1 then 1 else 0)
  else if col = "is_holiday" then (if t.is_holiday then 1 else 0)
  else if col = "weather" then (t.weather_code : ℚ)
  else if col = "route_name_Thatipur-to-Morar" then 1
  else 0

/-- The assembled one-row feature frame as an ordered association list over
the schema columns. -/
def prediction_df (t : TripContext) : List (String × ℚ) :=
  MODEL_COLUMNS.map fun c => (c, prediction_df_value t c)

/-- Everything the predict stage (src/app.py lines 156-175) consumes, with the
external collaborators abstracted by their responses. -/
structure PredictInputs where
  route_resp : Option RouteResponse
  now_weekday : Nat
  now_hour : Nat
  now_is_holiday : Bool
  weather_resp : Option String

/-- The feature row assembled by the predict stage for a given base time. -/
def assembled_row (inp : PredictInputs) (bt : ℚ) : List (String × ℚ) :=
  prediction_df
    ⟨bt, inp.now_weekday, inp.now_hour, inp.now_is_holiday,
     (get_live_weather inp.weather_resp).1⟩

/-- The car branch of the predict stage (src/app.py lines 164-175): fetch the
route, and under `if base_time:` assemble the row, call the model, and derive
`results[quoted car_ml] = predicted_seconds[0] / 60` and the traffic status.
Returns `none` when the guard rejects the request (no row is assembled and
the model is not invoked), otherwise
`some (predicted_seconds, predicted_minutes, traffic_status)`. -/
def predict_stage (model : List (String × ℚ) → ℚ) (inp : PredictInputs) :
    Option (ℚ × ℚ × (String × String)) :=
  match (get_route_details inp.route_resp).2.1 with
  | none => none
  | some bt =>
    if bt = 0 then none
    else
      let predicted_seconds := model (assembled_row inp bt)
      some (predicted_seconds, predicted_seconds / 60,
            get_traffic_status predicted_seconds (some bt))

/-- A routing response whose base travel time is 10800 s (at the sanity ceiling claimed by the spec). -/
def ceilingResp : RouteResponse :=
  ⟨[⟨⟨some 12000, some 10800⟩, [⟨[(26, 78)]⟩]⟩]⟩

/-- A routing response whose base travel time is negative. -/
def negResp : RouteResponse :=
  ⟨[⟨⟨some 700, some (-5)⟩, [⟨[(26, 78)]⟩]⟩]⟩

/-- A routing response with an ordinary base travel time of 600 s. -/
def okResp : RouteResponse :=
  ⟨[⟨⟨some 700, some 600⟩, [⟨[(26, 78)]⟩]⟩]⟩

/-- `strHasPre pat s` decides whether `s` starts with `pat`. -/
theorem strHasPre_iff (pat : List Char) : ∀ s : List Char,
    strHasPre pat s = true ↔ ∃ r, s = pat ++ r := by
  induction pat with
  | nil => intro s; simp [strHasPre]
  | cons p ps ih =>
    intro s
    cases s with
    | nil => simp [strHasPre]
    | cons c cs =>
      simp only [strHasPre, Bool.and_eq_true, beq_iff_eq, ih, List.cons_append,
        List.cons.injEq]
      constructor
      · rintro ⟨hpc, r, hr⟩
        exact ⟨r, hpc.symm, hr⟩
      · rintro ⟨r, hcp, hr⟩
        exact ⟨hcp.symm, r, hr⟩

/-- `strHasSub pat s` decides whether `pat` occurs contiguously inside `s`. -/
theorem strHasSub_iff (pat : List Char) : ∀ s : List Char,
    strHasSub pat s = true ↔ ∃ l r, s = l ++ pat ++ r := by
  intro s
  induction s with
  | nil =>
    simp only [strHasSub, strHasPre_iff]
    constructor
    · rintro ⟨r, hr⟩
      exact ⟨[], r, by simpa using hr⟩
    · rintro ⟨l, r, hr⟩
      refine ⟨r, ?_⟩
      rcases l with _ | ⟨x, xs⟩
      · simpa using hr
      · simp at hr
  | cons c cs ih =>
    simp only [strHasSub, Bool.or_eq_true, strHasPre_iff, ih]
    constructor
    · rintro (⟨r, hr⟩ | ⟨l, r, hr⟩)
      · exact ⟨[], r, by simpa using hr⟩
      · exact ⟨c :: l, r, by simp [hr]⟩
    · rintro ⟨l, r, hr⟩
      rcases l with _ | ⟨x, xs⟩
      · exact Or.inl ⟨r, by simpa using hr⟩
      · simp only [List.cons_append, List.cons.injEq] at hr
        exact Or.inr ⟨xs, r, hr.2⟩

/-- The executable Python `in` test agrees with the substring predicate. -/
theorem pyIn_iff (pat s : String) : pyIn pat s = true ↔ IsSub pat s :=
  strHasSub_iff pat.data s.data

/-- Shared helper: when the condition string contains a rain-family word,
`get_live_weather` takes the first branch and reports code 2. -/
theorem weather_rain_branch (s : String)
    (h : IsSub "Rain" s ∨ IsSub "Drizzle" s ∨ IsSub "Thunderstorm" s) :
    (get_live_weather (some s)).1 = 2 := by
  have hb : (pyIn "Rain" s || pyIn "Drizzle" s || pyIn "Thunderstorm" s) = true := by
    rcases h with h | h | h
    · simp [(pyIn_iff "Rain" s).mpr h]
    · simp [(pyIn_iff "Drizzle" s).mpr h]
    · simp [(pyIn_iff "Thunderstorm" s).mpr h]
  simp [get_live_weather, hb]

/-- Shared helper: the executable `in` test is false when the substring
predicate fails. -/
theorem pyIn_eq_false (pat s : String) (h : ¬ IsSub pat s) :
    pyIn pat s = false := by
  rcases hp : pyIn pat s
  · rfl
  · exact absurd ((pyIn_iff pat s).mp hp) h

/-- C2: for every assembled feature row, regardless of the user-entered origin
and destination (on which the row assembly does not depend at all), the five
route indicator columns carry the values 0, 0, 0, 0, 1 in schema order: the
fixed column `route_name_Thatipur-to-Morar` is the unique indicator set to 1
and the other four `route_name_*` columns are 0. -/
theorem route_indicator_hardcoded (t : TripContext) :
    ROUTE_COLUMNS.map (fun c => prediction_df_value t c) =
      [0, 0, 0, 0, 1] := by
  rfl

/-- C3: for every TripContext, the assembled feature row has exactly the 11
schema columns, in schema order, with no missing or extra columns. -/
theorem schema_columns_exact (t : TripContext) :
    (prediction_df t).map Prod.fst =
      ["base_travel_time_seconds", "day_of_week", "hour_of_day",
       "is_market_closed", "is_holiday", "weather",
       "route_name_CityCenter-to-Palace", "route_name_Fort-to-Station",
       "route_name_Highway-Bypass", "route_name_Mall-to-IIITM",
       "route_name_Thatipur-to-Morar"] ∧
    (prediction_df t).length = 11 := by
  constructor <;> rfl

/-- C4: `get_traffic_status` equals the reference `classify_traffic`
definition — falsy base gives Unknown, ratio < 1.2 Light, 1.2 ≤ ratio < 1.6
Moderate, otherwise Heavy — and at the boundary, predicted 600 over base 500
(ratio exactly 1.2) yields Moderate, not Light. -/
theorem get_traffic_status_correct :
    (∀ (p : ℚ) (b : Option ℚ), get_traffic_status p b = classify_traffic_spec p b) ∧
    get_traffic_status 600 (some 500) = ("Moderate Traffic", "🟡") := by
  constructor
  · intro p b
    rcases b with _ | b
    · rfl
    · by_cases hb : b = 0
      · simp [get_traffic_status, classify_traffic_spec, hb]
      · simp only [get_traffic_status, classify_traffic_spec, hb, if_false]
        norm_num
  · norm_num [get_traffic_status]

/-- C8: in every assembled feature row, `is_market_closed` is 1 exactly when
the weekday of the timestamp is 1 (Tuesday, Monday = 0) and 0 otherwise, and the
`day_of_week` column carries that weekday. -/
theorem market_closed_rule (t : TripContext) :
    (prediction_df_value t "is_market_closed" = 1 ↔ t.weekday = 1) ∧
    (prediction_df_value t "is_market_closed" = 0 ↔ t.weekday ≠ 1) ∧
    prediction_df_value t "day_of_week" = (t.weekday : ℚ) := by
  refine ⟨?_, ?_, rfl⟩ <;>
    by_cases h : t.weekday = 1 <;>
      simp [prediction_df_value, h]

/-- C5: the weather code for a condition string is determined by
case-sensitive substring match — 2 if it contains "Rain", "Drizzle" or
"Thunderstorm"; else 1 if it contains "Clouds"; else 0 — and on any failure
of the weather collaborator the code defaults to 0. -/
theorem weather_code_spec (s : String) :
    ((IsSub "Rain" s ∨ IsSub "Drizzle" s ∨ IsSub "Thunderstorm" s) →
        (get_live_weather (some s)).1 = 2) ∧
    (¬(IsSub "Rain" s ∨ IsSub "Drizzle" s ∨ IsSub "Thunderstorm" s) →
      IsSub "Clouds" s → (get_live_weather (some s)).1 = 1) ∧
    (¬(IsSub "Rain" s ∨ IsSub "Drizzle" s ∨ IsSub "Thunderstorm" s) →
      ¬ IsSub "Clouds" s → (get_live_weather (some s)).1 = 0) ∧
    (get_live_weather none).1 = 0 := by
  refine ⟨weather_rain_branch s, ?_, ?_, rfl⟩
  · intro hnr hc
    push_neg at hnr
    obtain ⟨h1, h2, h3⟩ := hnr
    simp [get_live_weather, pyIn_eq_false _ _ h1, pyIn_eq_false _ _ h2,
      pyIn_eq_false _ _ h3, (pyIn_iff "Clouds" s).mpr hc]
  · intro hnr hc
    push_neg at hnr
    obtain ⟨h1, h2, h3⟩ := hnr
    simp [get_live_weather, pyIn_eq_false _ _ h1, pyIn_eq_false _ _ h2,
      pyIn_eq_false _ _ h3, pyIn_eq_false _ _ hc]

/-- Witness for C5 at the condition string "Thunderstorm". -/
theorem weather_code_spec_witness :
    (get_live_weather (some "Thunderstorm")).1 = 2 :=
  (weather_code_spec "Thunderstorm").1 (Or.inr (Or.inr ⟨[], [], rfl⟩))

/-- C10: the rain-family check takes precedence over the clouds check — a
condition string containing both a rain-family word and "Clouds" gets
weather code 2, never 1. -/
theorem rain_precedes_clouds (s : String)
    (_hc : IsSub "Clouds" s)
    (hr : IsSub "Rain" s ∨ IsSub "Drizzle" s ∨ IsSub "Thunderstorm" s) :
    (get_live_weather (some s)).1 = 2 :=
  weather_rain_branch s hr

/-- Witness for C10 at the condition string "Rain, Clouds". -/
theorem rain_precedes_clouds_witness :
    (get_live_weather (some "Rain, Clouds")).1 = 2 :=
  rain_precedes_clouds "Rain, Clouds"
    ⟨"Rain, ".data, [], rfl⟩
    (Or.inl ⟨[], ", Clouds".data, rfl⟩)

/-- C9: the falsy guard in `get_traffic_status` does not reject negative base
times — for any predicted time ≥ 0 and any base time < 0 the ratio is ≤ 0,
hence < 1.2, and the result is Light Traffic, not Unknown. -/
theorem negative_base_is_light (p b : ℚ) (hp : 0 ≤ p) (hb : b < 0) :
    get_traffic_status p (some b) = ("Light Traffic", "🟢") := by
  have hb0 : ¬ b = 0 := ne_of_lt hb
  have hr : p / b ≤ 0 := div_nonpos_of_nonneg_of_nonpos hp (le_of_lt hb)
  have hlt : p / b < 12 / 10 := lt_of_le_of_lt hr (by norm_num)
  simp [get_traffic_status, hb0, hlt]

/-- Witness for C9 at predicted 600, base -500. -/
theorem negative_base_is_light_witness :
    get_traffic_status 600 (some (-500)) = ("Light Traffic", "🟢") :=
  negative_base_is_light 600 (-500) (by norm_num) (by norm_num)

/-- C6: when the routing collaborator fails (the call raises) or returns no
usable base travel time, the predict stage aborts before inference — it
returns `none`, for every model — while the weather path falls back to the
safe default code 0 instead of aborting. -/
theorem routing_failure_aborts (model : List (String × ℚ) → ℚ)
    (inp : PredictInputs)
    (h : inp.route_resp = none ∨ (get_route_details inp.route_resp).2.1 = none) :
    predict_stage model inp = none ∧ (get_live_weather none).1 = 0 := by
  have hb : (get_route_details inp.route_resp).2.1 = none := by
    rcases h with h | h
    · simp [get_route_details, h]
    · exact h
  exact ⟨by simp [predict_stage, hb], rfl⟩

/-- Witness for C6 at a raised routing call. -/
theorem routing_failure_aborts_witness :
    predict_stage (fun _ => 900) ⟨none, 2, 9, false, none⟩ = none ∧
      (get_live_weather none).1 = 0 :=
  routing_failure_aborts (fun _ => 900) ⟨none, 2, 9, false, none⟩ (Or.inl rfl)

/-- Shared helper: the shape of the output of the predict stage when the base-time
guard passes. -/
theorem predict_stage_eq_some (model : List (String × ℚ) → ℚ)
    (inp : PredictInputs) (bt : ℚ)
    (hb : (get_route_details inp.route_resp).2.1 = some bt) (h0 : bt ≠ 0) :
    predict_stage model inp =
      some (model (assembled_row inp bt), model (assembled_row inp bt) / 60,
        get_traffic_status (model (assembled_row inp bt)) (some bt)) := by
  simp [predict_stage, hb, h0]

/-- C7: whenever the predict stage produces an output, the displayed minutes
value is exactly the predicted seconds of the model divided by 60. -/
theorem predicted_minutes_exact (model : List (String × ℚ) → ℚ)
    (inp : PredictInputs) (p m : ℚ) (st : String × String)
    (h : predict_stage model inp = some (p, m, st)) :
    m = p / 60 := by
  rcases hb : (get_route_details inp.route_resp).2.1 with _ | bt
  · simp [predict_stage, hb] at h
  · by_cases h0 : bt = 0
    · simp [predict_stage, hb, h0] at h
    · rw [predict_stage_eq_some model inp bt hb h0] at h
      simp only [Option.some.injEq, Prod.mk.injEq] at h
      obtain ⟨hp, hm, -⟩ := h
      rw [← hm, ← hp]

/-- Witness for C7: a model output of 900 seconds is displayed as
900 / 60 = 15 minutes. -/
theorem predicted_minutes_exact_witness : (15 : ℚ) = 900 / 60 :=
  predicted_minutes_exact (fun _ => 900) ⟨some okResp, 2, 9, false, none⟩
    900 15 ("Moderate Traffic", "🟡")
    (by norm_num [predict_stage, get_route_details, okResp, truthyQ,
      get_traffic_status, beq_iff_eq])

/-- C1 counterexample: there is no sanity-ceiling or positivity validation in
the predict stage. A routing result with base time 10800 s (at the claimed
ceiling) and one with base time -5 s (not positive) are both accepted: the
feature row is assembled, the model is invoked, and a prediction is
produced (9000 s, displayed as 150 min), instead of the request being
rejected. -/
theorem no_sanity_ceiling_cex :
    predict_stage (fun _ => 9000) ⟨some ceilingResp, 2, 9, false, none⟩ =
      some (9000, 150, ("Light Traffic", "🟢")) ∧
    predict_stage (fun _ => 9000) ⟨some negResp, 2, 9, false, none⟩ =
      some (9000, 150, ("Light Traffic", "🟢")) := by
  constructor <;>
    norm_num [predict_stage, get_route_details, ceilingResp, negResp, truthyQ,
      get_traffic_status, beq_iff_eq]

/-- C1 amended: the predict stage validates the base
travel time only by Python truthiness — a prediction request is rejected
(no feature row assembled, model.predict not called) exactly when the base
time is absent or 0; there is no positivity check and no 10,800-second
ceiling in this revision. -/
theorem base_time_guard (model : List (String × ℚ) → ℚ) (inp : PredictInputs) :
    (predict_stage model inp).isSome =
      truthyQ (get_route_details inp.route_resp).2.1 := by
  rcases hb : (get_route_details inp.route_resp).2.1 with _ | bt
  · simp [predict_stage, hb, truthyQ]
  · by_cases h0 : bt = 0
    · simp [predict_stage, hb, h0, truthyQ]
    · simp [predict_stage, hb, h0, truthyQ]

end GwaliorTraffic
